import Mathlib

/-!
# WikiBench: verification of the evaluation/scoring core

Shallow embedding of `wikibench.py`: the result data model, the scorer
(`WikiBenchScorer.calculate_score`), the path validator
(`WikipediaNavigator.is_valid_wikipedia_path`), the single-trial evaluator
(`WikiBenchEvaluator.run_single_evaluation`) and the report aggregator
(`WikiBenchEvaluator.generate_report`).

External I/O (the `requests` session inside `WikipediaNavigator`) is modelled
by explicit oracles: a `LinkFetcher` standing for `get_page_links` (returning
either the list of `(title, url)` links of a page or an error message, as the
Python function either returns a list or raises), and an
`Except String (String × String)` value standing for the outcome of
`get_random_page`.  Python exceptions are modelled by `Except`:
a function that can raise returns `Except String α`, and a `try/except`
block becomes a `match` on that value.  Wall-clock timing (`time.time()`)
is not modelled; the `time_taken` field is carried but left at `0`.
-/

namespace WikiBench

/-- `EvaluationMode` enum from `wikibench.py`. -/
inductive EvaluationMode where
  | NO_TOOL_USE
  | TOOL_USE
deriving DecidableEq, Repr

/-- The `WikiBenchResult` dataclass.  `path = None` is normalised to `[]` by
`__post_init__`, so the embedded field is a plain list defaulting to `[]`.
Python `int` fields are embedded as `Int`; `time_taken` (a float, never
constrained by any claim) is carried as `ℚ`. -/
@[ext]
structure WikiBenchResult where
  start_page : String
  start_url : String
  target_page : String := "Kevin Bacon"
  target_url : String := "https://en.wikipedia.org/wiki/Kevin_Bacon"
  path : List String := []
  score : Int := 0
  success : Bool := false
  gave_up : Bool := false
  cheated : Bool := false
  invalid_path : Bool := false
  creative_connections : Int := 0
  time_taken : ℚ := 0
  error_message : Option String := none
deriving DecidableEq, Repr

namespace WikiBenchScorer

def BASE_SCORE : Int := 0
def INVALID_PATH_PENALTY : Int := 10
def GAVE_UP_PENALTY : Int := 15
def CHEATING_PENALTY : Int := 20
def CREATIVE_CONNECTION_BONUS : Int := -1

/-- `WikiBenchScorer.calculate_score`: base score is the path length, plus
flat penalties for each set failure flag, plus the creative-connection
bonus, clamped to a minimum of `0`. -/
def calculate_score (result : WikiBenchResult) : Int :=
  let score : Int := BASE_SCORE + result.path.length
  let score := if result.invalid_path then score + INVALID_PATH_PENALTY else score
  let score := if result.gave_up then score + GAVE_UP_PENALTY else score
  let score := if result.cheated then score + CHEATING_PENALTY else score
  let score := score + result.creative_connections * CREATIVE_CONNECTION_BONUS
  max 0 score

end WikiBenchScorer

/-- Oracle for `WikipediaNavigator.get_page_links`: given a URL it returns the
page's outbound `(title, url)` links, or an error message (the Python function
raises on any network/parse failure). -/
abbrev LinkFetcher := String → Except String (List (String × String))

/-- Oracle for an agent's `solve_wikibench`: given start page, start URL and
mode it returns a path, or an error message (a raised exception). -/
abbrev AgentSolver := String → String → EvaluationMode → Except String (List String)

/-- The URL built by `is_valid_wikipedia_path` for a page title:
`f"https://en.wikipedia.org/wiki/{title.replace(' ', '_')}"`. -/
def wikiUrl (title : String) : String :=
  "https://en.wikipedia.org/wiki/" ++ title.replace " " "_"

/-- The loop body of `is_valid_wikipedia_path`: walk the consecutive pairs of
the path in order; for each pair fetch the current page's links and require
the next title to occur among the fetched link titles (case-sensitive `in`);
a fetch error (the surrounding `try/except`) or a missing title returns
`False` at once. -/
def validPairs (fetch : LinkFetcher) : List String → Bool
  | [] => true
  | [_] => true
  | current :: next :: rest =>
    match fetch (wikiUrl current) with
    | .error _ => false
    | .ok links =>
      if next ∈ links.map Prod.fst then validPairs fetch (next :: rest) else false

/-- `WikipediaNavigator.is_valid_wikipedia_path`: an empty path is invalid;
otherwise every consecutive pair must be backed by a fetched link. -/
def is_valid_wikipedia_path (fetch : LinkFetcher) (path : List String) : Bool :=
  if path.isEmpty then false else validPairs fetch path

/-- `WikipediaNavigator.check_if_reached_target`: case-insensitive comparison
of the current page against the target (the Python default target argument
`"Kevin Bacon"` is passed explicitly by the one caller in scope). -/
def check_if_reached_target (current_page : String) (target_page : String) : Bool :=
  current_page.toLower == target_page.toLower

/-- The classification-and-scoring tail of `run_single_evaluation` (the
statements after `agent.solve_wikibench` returns a path), in the exact
Python statement order: normalise a falsy path to `[]`, then the cheat
check, the give-up check, the tool-use path validation, the success check,
and finally the score. -/
def classifyAndScore (fetch : LinkFetcher) (mode : EvaluationMode)
    (start_page start_url : String) (path : List String) : WikiBenchResult :=
  let result : WikiBenchResult := { start_page := start_page, start_url := start_url }
  let result := { result with path := if path.isEmpty then [] else path }
  let result := if result.path.length == 1 && result.path.headD "" == "Kevin Bacon" then
      { result with cheated := true }
    else result
  let result := if result.path.isEmpty then { result with gave_up := true } else result
  let result := if mode == EvaluationMode.TOOL_USE && !result.path.isEmpty then
      { result with invalid_path := !is_valid_wikipedia_path fetch (start_page :: result.path) }
    else result
  let result := if !result.path.isEmpty && !result.gave_up && !result.cheated then
      { result with success := check_if_reached_target (result.path.getLastD "") "Kevin Bacon" }
    else result
  { result with score := WikiBenchScorer.calculate_score result }

/-- `WikiBenchEvaluator.run_single_evaluation`.  `randomPage` is the outcome
of `self.navigator.get_random_page()`; that call sits *outside* the `try`
block, so its failure is returned as `.error` (a propagated exception), while
a failure of `agent.solve_wikibench` is caught and recorded in the result
(the `except` branch: at that point `result.path` is still the `[]` it was
constructed with). -/
def run_single_evaluation (fetch : LinkFetcher)
    (randomPage : Except String (String × String))
    (solve : AgentSolver) (mode : EvaluationMode)
    (start_page? : Option String) (start_url? : Option String) :
    Except String WikiBenchResult :=
  let start : Except String (String × String) :=
    match start_page?, start_url? with
    | some p, some u => Except.ok (p, u)
    | _, _ => randomPage
  match start with
  | .error e => .error e
  | .ok (start_page, start_url) =>
    match solve start_page start_url mode with
    | .error e =>
      let result : WikiBenchResult :=
        { start_page := start_page, start_url := start_url
          error_message := some e, gave_up := true }
      .ok { result with score := WikiBenchScorer.calculate_score result }
    | .ok path =>
      .ok (classifyAndScore fetch mode start_page start_url path)

/-- The report dictionary built by `WikiBenchEvaluator.generate_report`
(the Python float fields are embedded as `ℚ`). -/
structure Report where
  agent_name : String
  total_trials : Nat
  successful_trials : Nat
  success_rate : ℚ
  gave_up_count : Nat
  cheated_count : Nat
  invalid_path_count : Nat
  average_score : ℚ
  best_score : Int
  worst_score : Int
  average_path_length : ℚ
  results : List WikiBenchResult
deriving DecidableEq, Repr

/-- `WikiBenchEvaluator.generate_report`: the Python function returns the
empty dict `{}` on an empty result list (embedded as `none`), otherwise the
populated report.  `min`/`max` over the (nonempty) score list are embedded by
`List.min?`/`List.max?` with an irrelevant default. -/
def generate_report (results : List WikiBenchResult) (agent_name : String) :
    Option Report :=
  if results.isEmpty then none
  else
    let total_trials := results.length
    let successful_trials := (results.filter (fun r => r.success)).length
    let gave_up_count := (results.filter (fun r => r.gave_up)).length
    let cheated_count := (results.filter (fun r => r.cheated)).length
    let invalid_path_count := (results.filter (fun r => r.invalid_path)).length
    let scores := results.map (fun r => r.score)
    let path_lengths := (results.filter (fun r => !r.path.isEmpty)).map
      (fun r => r.path.length)
    some {
      agent_name := agent_name
      total_trials := total_trials
      successful_trials := successful_trials
      success_rate := (successful_trials : ℚ) / (total_trials : ℚ) * 100
      gave_up_count := gave_up_count
      cheated_count := cheated_count
      invalid_path_count := invalid_path_count
      average_score := ((scores.sum : Int) : ℚ) / (scores.length : ℚ)
      best_score := scores.min?.getD 0
      worst_score := scores.max?.getD 0
      average_path_length :=
        if path_lengths.isEmpty then 0
        else ((path_lengths.sum : Nat) : ℚ) / (path_lengths.length : ℚ)
      results := results
    }

/-! ## Specification-side vocabulary and concrete oracles -/

/-- One validator step, stated abstractly: page `a`'s fetch succeeds and the
fetched link titles contain `b` (case-sensitive). -/
def linkedTo (fetch : LinkFetcher) (a b : String) : Prop :=
  ∃ links, fetch (wikiUrl a) = Except.ok links ∧ b ∈ links.map Prod.fst

/-- A link source whose every page has no outbound links (a valid, dead-end
response in the Python client). -/
def fetchNoLinks : LinkFetcher := fun _ => Except.ok []

/-- A link source whose every fetch fails (a raised network error). -/
def fetchFail : LinkFetcher := fun _ => Except.error "network error"

/-- An agent that always answers `["Kevin Bacon"]` (the cheating path). -/
def solveKB : AgentSolver := fun _ _ _ => Except.ok ["Kevin Bacon"]

/-- An agent that always answers the two-hop path `["A", "Kevin Bacon"]`
(ends at the target without matching the one-element cheat pattern). -/
def solveAKb : AgentSolver := fun _ _ _ => Except.ok ["A", "Kevin Bacon"]

/-- The result produced for an agent that gives up from start page `"A"`. -/
def emptyTrialResult : WikiBenchResult :=
  { start_page := "A", start_url := "uA", gave_up := true, score := 15 }

/-- An agent that always gives up (returns the empty path). -/
def solveEmpty : AgentSolver := fun _ _ _ => Except.ok []

/-- An agent whose `solve_wikibench` always raises. -/
def solveBoom : AgentSolver := fun _ _ _ => Except.error "agent crashed"

end WikiBench

/-! ## Helper lemmas -/

namespace WikiBench

/-- The `path` field of a classified result is the agent's path
(an empty path is normalised to `[]`, which is itself). -/
theorem classifyAndScore_path (f : LinkFetcher) (m : EvaluationMode)
    (sp su : String) (p : List String) :
    (classifyAndScore f m sp su p).path = p := by
  unfold classifyAndScore
  cases p with
  | nil => cases m <;> rfl
  | cons a t =>
    cases m <;> simp only [List.isEmpty_cons, Bool.false_eq_true, if_false] <;>
      split <;> split <;> simp_all

/-- The `gave_up` flag of a classified result records path emptiness. -/
theorem classifyAndScore_gave_up (f : LinkFetcher) (m : EvaluationMode)
    (sp su : String) (p : List String) :
    (classifyAndScore f m sp su p).gave_up = p.isEmpty := by
  unfold classifyAndScore
  cases p with
  | nil => cases m <;> rfl
  | cons a t =>
    cases m <;> simp only [List.isEmpty_cons, Bool.false_eq_true, if_false] <;>
      split <;> split <;> simp_all

/-- The `cheated` flag of a classified result holds exactly for the
one-element literal-target path. -/
theorem classifyAndScore_cheated (f : LinkFetcher) (m : EvaluationMode)
    (sp su : String) (p : List String) :
    (classifyAndScore f m sp su p).cheated = true ↔
      p.length = 1 ∧ p.headD "" = "Kevin Bacon" := by
  unfold classifyAndScore
  cases p with
  | nil => cases m <;> simp
  | cons a t =>
    cases m <;> simp only [List.isEmpty_cons, Bool.false_eq_true, if_false] <;>
      split <;> split <;> simp_all

/-- The `success` flag of a classified result: non-empty path, not the cheat
pattern, and the last element reaches the target up to case. -/
theorem classifyAndScore_success (f : LinkFetcher) (m : EvaluationMode)
    (sp su : String) (p : List String) :
    (classifyAndScore f m sp su p).success = true ↔
      p ≠ [] ∧ ¬(p.length = 1 ∧ p.headD "" = "Kevin Bacon") ∧
      (p.getLastD "").toLower = "Kevin Bacon".toLower := by
  unfold classifyAndScore
  cases p with
  | nil => cases m <;> simp
  | cons a t =>
    cases m <;> simp only [List.isEmpty_cons, Bool.false_eq_true, if_false] <;>
      split <;> split <;> simp_all [check_if_reached_target]

/-- With a caller-supplied start page and a successful agent call,
`run_single_evaluation` returns the classified and scored result. -/
theorem run_single_ok (f : LinkFetcher) (rp : Except String (String × String))
    (solve : AgentSolver) (m : EvaluationMode) (sp su : String) (path : List String)
    (hs : solve sp su m = Except.ok path) :
    run_single_evaluation f rp solve m (some sp) (some su) =
      Except.ok (classifyAndScore f m sp su path) := by
  simp only [run_single_evaluation, hs]

/-- With a caller-supplied start page and a raising agent call,
`run_single_evaluation` returns the forced give-up result with the
exception text recorded and score `15`. -/
theorem run_single_err (f : LinkFetcher) (rp : Except String (String × String))
    (solve : AgentSolver) (m : EvaluationMode) (sp su : String) (e : String)
    (hs : solve sp su m = Except.error e) :
    run_single_evaluation f rp solve m (some sp) (some su) =
      Except.ok { start_page := sp, start_url := su,
                  error_message := some e, gave_up := true, score := 15 } := by
  simp only [run_single_evaluation, hs]
  rfl

/-- The only way `run_single_evaluation` propagates an exception is a failed
random-page fetch. -/
theorem run_single_error_from_random (f : LinkFetcher)
    (rp : Except String (String × String)) (solve : AgentSolver)
    (m : EvaluationMode) (sp? su? : Option String) (e : String)
    (h : run_single_evaluation f rp solve m sp? su? = Except.error e) :
    rp = Except.error e := by
  unfold run_single_evaluation at h
  cases sp? with
  | none =>
    cases rp with
    | error e' => simp_all
    | ok v => cases hs : solve v.1 v.2 m <;> simp_all
  | some sp =>
    cases su? with
    | none =>
      cases rp with
      | error e' => simp_all
      | ok v => cases hs : solve v.1 v.2 m <;> simp_all
    | some su =>
      cases hs : solve sp su m <;> simp_all

/-- The validator loop accepts a list exactly when consecutive pairs are
linked. -/
theorem validPairs_iff_chain (fetch : LinkFetcher) :
    ∀ l : List String, validPairs fetch l = true ↔ List.Chain' (linkedTo fetch) l := by
  intro l
  induction l with
  | nil => simp [validPairs]
  | cons a t ih =>
    cases t with
    | nil => simp [validPairs]
    | cons b rest =>
      rw [List.chain'_cons]
      unfold validPairs
      cases hf : fetch (wikiUrl a) with
      | error e =>
        simp only [Bool.false_eq_true, false_iff]
        rintro ⟨⟨links', hl', -⟩, -⟩
        rw [hf] at hl'
        exact Except.noConfusion hl'
      | ok links =>
        show (if b ∈ links.map Prod.fst then validPairs fetch (b :: rest) else false) = true ↔
          linkedTo fetch a b ∧ List.Chain' (linkedTo fetch) (b :: rest)
        by_cases hm : b ∈ links.map Prod.fst
        · rw [if_pos hm, ih]
          constructor
          · intro h
            exact ⟨⟨links, hf, hm⟩, h⟩
          · intro h
            exact h.2
        · rw [if_neg hm]
          simp only [Bool.false_eq_true, false_iff]
          rintro ⟨⟨links', hl', hm'⟩, -⟩
          rw [hf] at hl'
          injection hl' with h'
          subst h'
          exact hm hm'

/-- A fetch error at any pair of the loop forces rejection. -/
theorem validPairs_fetch_error (fetch : LinkFetcher) :
    ∀ (l : List String) (i : Nat) (e : String), i + 1 < l.length →
      fetch (wikiUrl (l.getD i "")) = Except.error e → validPairs fetch l = false := by
  intro l
  induction l with
  | nil => intro i e hi _; simp at hi
  | cons a t ih =>
    intro i e hi hf
    cases t with
    | nil => exact absurd hi (by simp)
    | cons b rest =>
      unfold validPairs
      cases hfa : fetch (wikiUrl a) with
      | error _ => rfl
      | ok links =>
        show (if b ∈ links.map Prod.fst then validPairs fetch (b :: rest) else false) = false
        by_cases hm : b ∈ links.map Prod.fst
        · rw [if_pos hm]
          cases i with
          | zero =>
            rw [List.getD_cons_zero] at hf
            rw [hf] at hfa
            simp at hfa
          | succ j =>
            apply ih j e
            · simp only [List.length_cons] at hi ⊢
              omega
            · rw [List.getD_cons_succ] at hf
              exact hf
        · rw [if_neg hm]

end WikiBench

/-! ## Claim theorems -/

namespace WikiBench

/-- C1: the scorer returns
`max 0 (len path + 10·[invalid_path] + 15·[gave_up] + 20·[cheated] - creative_connections)`;
hence the score is always non-negative, and any two results agreeing on
`(len path, invalid_path, gave_up, cheated, creative_connections)` receive
identical scores. -/
theorem calculate_score_spec :
    (∀ r : WikiBenchResult,
      WikiBenchScorer.calculate_score r =
        max 0 ((r.path.length : Int)
          + (if r.invalid_path then 10 else 0)
          + (if r.gave_up then 15 else 0)
          + (if r.cheated then 20 else 0)
          + (-1) * r.creative_connections)) ∧
    (∀ r : WikiBenchResult, 0 ≤ WikiBenchScorer.calculate_score r) ∧
    (∀ r₁ r₂ : WikiBenchResult,
      r₁.path.length = r₂.path.length → r₁.invalid_path = r₂.invalid_path →
      r₁.gave_up = r₂.gave_up → r₁.cheated = r₂.cheated →
      r₁.creative_connections = r₂.creative_connections →
      WikiBenchScorer.calculate_score r₁ = WikiBenchScorer.calculate_score r₂) := by
  have hform : ∀ r : WikiBenchResult,
      WikiBenchScorer.calculate_score r =
        max 0 ((r.path.length : Int)
          + (if r.invalid_path then 10 else 0)
          + (if r.gave_up then 15 else 0)
          + (if r.cheated then 20 else 0)
          + (-1) * r.creative_connections) := by
    intro r
    simp only [WikiBenchScorer.calculate_score, WikiBenchScorer.BASE_SCORE,
      WikiBenchScorer.INVALID_PATH_PENALTY, WikiBenchScorer.GAVE_UP_PENALTY,
      WikiBenchScorer.CHEATING_PENALTY, WikiBenchScorer.CREATIVE_CONNECTION_BONUS]
    cases r.invalid_path <;> cases r.gave_up <;> cases r.cheated <;> simp
  refine ⟨hform, fun r => ?_, fun r₁ r₂ h1 h2 h3 h4 h5 => ?_⟩
  · rw [hform]
    exact le_max_left 0 _
  · rw [hform, hform, h1, h2, h3, h4, h5]

/-- Witness for C1: two distinct concrete results with the same scoring
tuple get the same score. -/
theorem calculate_score_spec_witness :
    WikiBenchScorer.calculate_score
        { start_page := "A", start_url := "uA", path := ["X", "Y"], invalid_path := true } =
      WikiBenchScorer.calculate_score
        { start_page := "B", start_url := "uB", path := ["P", "Q"], invalid_path := true,
          time_taken := 5 } :=
  calculate_score_spec.2.2 _ _ rfl rfl rfl rfl rfl

/-- C4: the validator rejects the empty path, and accepts a path exactly when
it is non-empty and every consecutive pair `(current, next)` has a successful
link fetch for `current` with `next` occurring (case-sensitively) among the
fetched link titles; a single failing pair invalidates the whole path. -/
theorem is_valid_path_iff_chain (fetch : LinkFetcher) (path : List String) :
    is_valid_wikipedia_path fetch path = true ↔
      path ≠ [] ∧ List.Chain' (linkedTo fetch) path := by
  unfold is_valid_wikipedia_path
  by_cases hp : path.isEmpty
  · rw [List.isEmpty_iff] at hp
    subst hp
    simp
  · have hp' : path ≠ [] := by
      intro h
      subst h
      exact hp rfl
    rw [if_neg hp, validPairs_iff_chain]
    simp [hp']

/-- C5: a fetch error during validation makes the validator return `false`
(the embedding is a total function, so no exception escapes). -/
theorem is_valid_path_fetch_error (fetch : LinkFetcher) (path : List String)
    (i : Nat) (e : String) (hi : i + 1 < path.length)
    (hf : fetch (wikiUrl (path.getD i "")) = Except.error e) :
    is_valid_wikipedia_path fetch path = false := by
  unfold is_valid_wikipedia_path
  by_cases hp : path.isEmpty
  · rw [if_pos hp]
  · rw [if_neg hp]
    exact validPairs_fetch_error fetch path i e hi hf

/-- Witness for C5: a two-element path under an always-failing fetch is
rejected. -/
theorem is_valid_path_fetch_error_witness :
    (0 + 1 < (["A", "B"] : List String).length) ∧
      is_valid_wikipedia_path fetchFail ["A", "B"] = false :=
  ⟨by decide, is_valid_path_fetch_error fetchFail ["A", "B"] 0 "network error" (by decide) rfl⟩

end WikiBench

namespace WikiBench

/-- C2 counterexample: in `TOOL_USE` mode the invalid-path check *is* applied
to a cheating trial — with a start page that has no link to the target, the
`["Kevin Bacon"]` path yields `invalid_path = true` and score `31`, not `21`. -/
theorem cheat_invalid_check_counterexample :
    run_single_evaluation fetchNoLinks (Except.error "") solveKB
        EvaluationMode.TOOL_USE (some "A") (some "uA") =
      Except.ok { start_page := "A", start_url := "uA", path := ["Kevin Bacon"],
                  cheated := true, invalid_path := true, score := 31 } := rfl

/-- C2 (amended): a `["Kevin Bacon"]` answer sets `cheated = true` and
`success = false` regardless of mode, and cheating excludes the success
check; but the invalid-path check still runs in `TOOL_USE` mode, so the
score is `21` in `NO_TOOL_USE` mode and, in `TOOL_USE` mode, `21` when the
validator accepts `[start, "Kevin Bacon"]` and `31` when it rejects it. -/
theorem cheat_path_spec (fetch : LinkFetcher) (rp : Except String (String × String))
    (solve : AgentSolver) (m : EvaluationMode) (sp su : String)
    (hs : solve sp su m = Except.ok ["Kevin Bacon"]) :
    ∃ r, run_single_evaluation fetch rp solve m (some sp) (some su) = Except.ok r ∧
      r.cheated = true ∧ r.success = false ∧ r.gave_up = false ∧
      (m = EvaluationMode.NO_TOOL_USE → r.invalid_path = false ∧ r.score = 21) ∧
      (m = EvaluationMode.TOOL_USE →
        r.invalid_path = !is_valid_wikipedia_path fetch [sp, "Kevin Bacon"] ∧
        r.score = if is_valid_wikipedia_path fetch [sp, "Kevin Bacon"] then 21 else 31) := by
  refine ⟨_, run_single_ok fetch rp solve m sp su _ hs, ?_⟩
  cases m with
  | NO_TOOL_USE =>
    exact ⟨rfl, rfl, rfl, fun _ => ⟨rfl, rfl⟩, fun h => EvaluationMode.noConfusion h⟩
  | TOOL_USE =>
    have hr : classifyAndScore fetch EvaluationMode.TOOL_USE sp su ["Kevin Bacon"] =
        { start_page := sp, start_url := su, path := ["Kevin Bacon"], cheated := true,
          invalid_path := !is_valid_wikipedia_path fetch (sp :: ["Kevin Bacon"]),
          score := WikiBenchScorer.calculate_score
            { start_page := sp, start_url := su, path := ["Kevin Bacon"], cheated := true,
              invalid_path := !is_valid_wikipedia_path fetch (sp :: ["Kevin Bacon"]) } } := rfl
    rw [hr]
    cases hv : is_valid_wikipedia_path fetch (sp :: ["Kevin Bacon"]) with
    | false => exact ⟨rfl, rfl, rfl, fun h => EvaluationMode.noConfusion h, fun _ => ⟨rfl, rfl⟩⟩
    | true => exact ⟨rfl, rfl, rfl, fun h => EvaluationMode.noConfusion h, fun _ => ⟨rfl, rfl⟩⟩

/-- Witness for C2 (amended), at a concrete cheating agent in
`NO_TOOL_USE` mode. -/
theorem cheat_path_spec_witness :
    solveKB "A" "uA" EvaluationMode.NO_TOOL_USE = Except.ok ["Kevin Bacon"] ∧
    ∃ r, run_single_evaluation fetchNoLinks (Except.error "") solveKB
        EvaluationMode.NO_TOOL_USE (some "A") (some "uA") = Except.ok r ∧
      r.cheated = true ∧ r.success = false ∧ r.gave_up = false ∧
      (EvaluationMode.NO_TOOL_USE = EvaluationMode.NO_TOOL_USE →
        r.invalid_path = false ∧ r.score = 21) ∧
      (EvaluationMode.NO_TOOL_USE = EvaluationMode.TOOL_USE →
        r.invalid_path = !is_valid_wikipedia_path fetchNoLinks ["A", "Kevin Bacon"] ∧
        r.score = if is_valid_wikipedia_path fetchNoLinks ["A", "Kevin Bacon"]
          then 21 else 31) :=
  ⟨rfl, cheat_path_spec fetchNoLinks (Except.error "") solveKB
    EvaluationMode.NO_TOOL_USE "A" "uA" rfl⟩

/-- C3 counterexample: a failing random-page fetch propagates out of
`run_single_evaluation` as an exception instead of being contained in a
`TrialResult` — the call sits outside the `try` block. -/
theorem random_page_error_propagates :
    run_single_evaluation fetchNoLinks
        (Except.error "Failed to get random page: boom") solveKB
        EvaluationMode.TOOL_USE none none =
      Except.error "Failed to get random page: boom" := rfl

/-- C3 (amended): every failure arising inside the `try` block of
`run_single_evaluation` (in particular an agent exception) is contained in
the returned `TrialResult`; with a caller-supplied start page the function
always returns a result, and the only exception it can propagate is the
failure of the random-page fetch itself. -/
theorem trial_failure_containment :
    (∀ (fetch : LinkFetcher) (rp : Except String (String × String))
        (solve : AgentSolver) (m : EvaluationMode) (sp su : String),
      ∃ r, run_single_evaluation fetch rp solve m (some sp) (some su) = Except.ok r) ∧
    (∀ (fetch : LinkFetcher) (rp : Except String (String × String))
        (solve : AgentSolver) (m : EvaluationMode) (sp? su? : Option String) (e : String),
      run_single_evaluation fetch rp solve m sp? su? = Except.error e →
        rp = Except.error e) := by
  constructor
  · intro fetch rp solve m sp su
    cases hs : solve sp su m with
    | error e => exact ⟨_, run_single_err fetch rp solve m sp su e hs⟩
    | ok p => exact ⟨_, run_single_ok fetch rp solve m sp su p hs⟩
  · intro fetch rp solve m sp? su? e h
    exact run_single_error_from_random fetch rp solve m sp? su? e h

/-- Witness for C3 (amended): a crashing agent still produces a result. -/
theorem trial_failure_containment_witness :
    ∃ r, run_single_evaluation fetchNoLinks (Except.error "") solveBoom
        EvaluationMode.TOOL_USE (some "A") (some "uA") = Except.ok r :=
  trial_failure_containment.1 fetchNoLinks (Except.error "") solveBoom
    EvaluationMode.TOOL_USE "A" "uA"

/-- C6: an empty agent path yields `gave_up = true`, `success = false`,
`invalid_path = false`, `cheated = false` and score exactly `15`. -/
theorem empty_path_gives_up (fetch : LinkFetcher) (rp : Except String (String × String))
    (solve : AgentSolver) (m : EvaluationMode) (sp su : String)
    (hs : solve sp su m = Except.ok []) :
    ∃ r, run_single_evaluation fetch rp solve m (some sp) (some su) = Except.ok r ∧
      r.gave_up = true ∧ r.success = false ∧ r.invalid_path = false ∧
      r.cheated = false ∧ r.score = 15 := by
  refine ⟨_, run_single_ok fetch rp solve m sp su [] hs, ?_⟩
  cases m <;> exact ⟨rfl, rfl, rfl, rfl, rfl⟩

/-- Witness for C6, with a concrete always-give-up agent. -/
theorem empty_path_gives_up_witness :
    solveEmpty "A" "uA" EvaluationMode.TOOL_USE = Except.ok [] ∧
    ∃ r, run_single_evaluation fetchNoLinks (Except.error "") solveEmpty
        EvaluationMode.TOOL_USE (some "A") (some "uA") = Except.ok r ∧
      r.gave_up = true ∧ r.success = false ∧ r.invalid_path = false ∧
      r.cheated = false ∧ r.score = 15 :=
  ⟨rfl, empty_path_gives_up fetchNoLinks (Except.error "") solveEmpty
    EvaluationMode.TOOL_USE "A" "uA" rfl⟩

/-- C7: an agent exception is recorded (`error_message`), forces
`gave_up = true` with an empty path and score `15`, and the evaluator
returns the result instead of propagating the exception. -/
theorem agent_exception_contained (fetch : LinkFetcher)
    (rp : Except String (String × String)) (solve : AgentSolver)
    (m : EvaluationMode) (sp su e : String)
    (hs : solve sp su m = Except.error e) :
    ∃ r, run_single_evaluation fetch rp solve m (some sp) (some su) = Except.ok r ∧
      r.error_message = some e ∧ r.gave_up = true ∧ r.path = [] ∧ r.score = 15 :=
  ⟨_, run_single_err fetch rp solve m sp su e hs, rfl, rfl, rfl, rfl⟩

/-- Witness for C7, with a concrete crashing agent. -/
theorem agent_exception_contained_witness :
    solveBoom "A" "uA" EvaluationMode.NO_TOOL_USE = Except.error "agent crashed" ∧
    ∃ r, run_single_evaluation fetchNoLinks (Except.error "") solveBoom
        EvaluationMode.NO_TOOL_USE (some "A") (some "uA") = Except.ok r ∧
      r.error_message = some "agent crashed" ∧ r.gave_up = true ∧
      r.path = [] ∧ r.score = 15 :=
  ⟨rfl, agent_exception_contained fetchNoLinks (Except.error "") solveBoom
    EvaluationMode.NO_TOOL_USE "A" "uA" "agent crashed" rfl⟩

end WikiBench

namespace WikiBench

/-- C8: a returned trial is successful exactly when its path is non-empty,
it did not give up, it did not cheat, and the last path element equals the
target up to case; `invalid_path` plays no role, so a trial can be both
invalid and successful. -/
theorem success_characterization :
    (∀ (fetch : LinkFetcher) (rp : Except String (String × String))
        (solve : AgentSolver) (m : EvaluationMode) (sp su : String) (r : WikiBenchResult),
      run_single_evaluation fetch rp solve m (some sp) (some su) = Except.ok r →
        (r.success = true ↔
          r.path ≠ [] ∧ r.gave_up = false ∧ r.cheated = false ∧
          (r.path.getLastD "").toLower = "Kevin Bacon".toLower)) ∧
    (∃ r, run_single_evaluation fetchFail (Except.error "") solveAKb
        EvaluationMode.TOOL_USE (some "S") (some "uS") = Except.ok r ∧
      r.invalid_path = true ∧ r.success = true) := by
  constructor
  · intro fetch rp solve m sp su r h
    cases hs : solve sp su m with
    | error e =>
      rw [run_single_err fetch rp solve m sp su e hs] at h
      injection h with h'
      subst h'
      simp
    | ok p =>
      rw [run_single_ok fetch rp solve m sp su p hs] at h
      injection h with h'
      subst h'
      have hch : (classifyAndScore fetch m sp su p).cheated = false ↔
          ¬(p.length = 1 ∧ p.headD "" = "Kevin Bacon") := by
        rw [← classifyAndScore_cheated fetch m sp su p]
        cases (classifyAndScore fetch m sp su p).cheated <;> simp
      rw [classifyAndScore_success, classifyAndScore_path, classifyAndScore_gave_up, hch]
      constructor
      · rintro ⟨h1, h2, h3⟩
        refine ⟨h1, ?_, h2, h3⟩
        cases p with
        | nil => exact absurd rfl h1
        | cons a t => rfl
      · rintro ⟨h1, -, h3, h4⟩
        exact ⟨h1, h3, h4⟩
  · refine ⟨classifyAndScore fetchFail EvaluationMode.TOOL_USE "S" "uS" ["A", "Kevin Bacon"],
      run_single_ok fetchFail (Except.error "") solveAKb EvaluationMode.TOOL_USE
        "S" "uS" ["A", "Kevin Bacon"] rfl, rfl, ?_⟩
    rw [classifyAndScore_success]
    exact ⟨by simp, by simp, rfl⟩

/-- Witness for C8: the characterization applied to a concrete give-up
trial, whose result is `emptyTrialResult`. -/
theorem success_characterization_witness :
    run_single_evaluation fetchNoLinks (Except.error "") solveEmpty
        EvaluationMode.TOOL_USE (some "A") (some "uA") = Except.ok emptyTrialResult ∧
    (emptyTrialResult.success = true ↔
      emptyTrialResult.path ≠ [] ∧ emptyTrialResult.gave_up = false ∧
      emptyTrialResult.cheated = false ∧
      (emptyTrialResult.path.getLastD "").toLower = "Kevin Bacon".toLower) :=
  ⟨rfl, success_characterization.1 fetchNoLinks (Except.error "") solveEmpty
    EvaluationMode.TOOL_USE "A" "uA" emptyTrialResult rfl⟩

end WikiBench

namespace WikiBench

/-- C9: the report returns the empty report (`none`, the Python `{}`) on an
empty result list without dividing by zero; on a non-empty list the counts
are predicate counts, `success_rate = successful_trials / total_trials * 100`,
`best_score`/`worst_score` are the minimum/maximum of the scores, and
`average_path_length` is `0` when the path-length sample is empty. -/
theorem generate_report_spec :
    (∀ name : String, generate_report [] name = none) ∧
    (∀ (results : List WikiBenchResult) (name : String), results ≠ [] →
      ∃ rep, generate_report results name = some rep ∧
        rep.total_trials = results.length ∧
        rep.successful_trials = results.countP (fun r => r.success) ∧
        rep.gave_up_count = results.countP (fun r => r.gave_up) ∧
        rep.cheated_count = results.countP (fun r => r.cheated) ∧
        rep.invalid_path_count = results.countP (fun r => r.invalid_path) ∧
        rep.success_rate = (rep.successful_trials : ℚ) / (rep.total_trials : ℚ) * 100 ∧
        rep.best_score ∈ results.map (fun r => r.score) ∧
        (∀ s ∈ results.map (fun r => r.score), rep.best_score ≤ s) ∧
        rep.worst_score ∈ results.map (fun r => r.score) ∧
        (∀ s ∈ results.map (fun r => r.score), s ≤ rep.worst_score) ∧
        (results.filter (fun r => !r.path.isEmpty) = [] →
          rep.average_path_length = 0)) := by
  constructor
  · intro name
    rfl
  · intro results name hne
    have hne' : results.isEmpty = false := by
      simp [List.isEmpty_iff, hne]
    have hmapne : results.map (fun r => r.score) ≠ [] := by
      simp [hne]
    obtain ⟨m, hm⟩ : ∃ m, (results.map (fun r => r.score)).min? = some m := by
      cases h : (results.map (fun r => r.score)).min? with
      | none => exact absurd (List.min?_eq_none_iff.mp h) hmapne
      | some m => exact ⟨m, rfl⟩
    obtain ⟨M, hM⟩ : ∃ M, (results.map (fun r => r.score)).max? = some M := by
      cases h : (results.map (fun r => r.score)).max? with
      | none => exact absurd (List.max?_eq_none_iff.mp h) hmapne
      | some M => exact ⟨M, rfl⟩
    unfold generate_report
    simp only [hne', Bool.false_eq_true, if_false]
    refine ⟨_, rfl, rfl, ?_, ?_, ?_, ?_, rfl, ?_, ?_, ?_, ?_, ?_⟩
    · exact (List.countP_eq_length_filter _ _).symm
    · exact (List.countP_eq_length_filter _ _).symm
    · exact (List.countP_eq_length_filter _ _).symm
    · exact (List.countP_eq_length_filter _ _).symm
    · show (results.map (fun r => r.score)).min?.getD 0 ∈ results.map (fun r => r.score)
      rw [hm]
      exact List.min?_mem min_choice hm
    · intro s hs
      show (results.map (fun r => r.score)).min?.getD 0 ≤ s
      rw [hm]
      exact ((List.le_min?_iff (fun a b c => le_min_iff) hm).mp le_rfl) s hs
    · show (results.map (fun r => r.score)).max?.getD 0 ∈ results.map (fun r => r.score)
      rw [hM]
      exact List.max?_mem max_choice hM
    · intro s hs
      show s ≤ (results.map (fun r => r.score)).max?.getD 0
      rw [hM]
      exact ((List.max?_le_iff (fun a b c => max_le_iff) hM).mp le_rfl) s hs
    · intro hf
      simp [hf]

/-- Witness for C9, at a one-element result list. -/
theorem generate_report_spec_witness :
    ([emptyTrialResult] : List WikiBenchResult) ≠ [] ∧
    ∃ rep, generate_report [emptyTrialResult] "agent" = some rep ∧
      rep.total_trials = [emptyTrialResult].length ∧
      rep.successful_trials = [emptyTrialResult].countP (fun r => r.success) ∧
      rep.gave_up_count = [emptyTrialResult].countP (fun r => r.gave_up) ∧
      rep.cheated_count = [emptyTrialResult].countP (fun r => r.cheated) ∧
      rep.invalid_path_count = [emptyTrialResult].countP (fun r => r.invalid_path) ∧
      rep.success_rate = (rep.successful_trials : ℚ) / (rep.total_trials : ℚ) * 100 ∧
      rep.best_score ∈ [emptyTrialResult].map (fun r => r.score) ∧
      (∀ s ∈ [emptyTrialResult].map (fun r => r.score), rep.best_score ≤ s) ∧
      rep.worst_score ∈ [emptyTrialResult].map (fun r => r.score) ∧
      (∀ s ∈ [emptyTrialResult].map (fun r => r.score), s ≤ rep.worst_score) ∧
      ([emptyTrialResult].filter (fun r => !r.path.isEmpty) = [] →
        rep.average_path_length = 0) :=
  ⟨List.cons_ne_nil _ _,
    generate_report_spec.2 [emptyTrialResult] "agent" (List.cons_ne_nil _ _)⟩

/-- C10: `average_path_length` averages `len(path)` only over results with a
non-empty path (give-ups are excluded from numerator and denominator), while
`total_trials` and the score statistics still range over every result. -/
theorem average_path_length_excludes_empty (results : List WikiBenchResult)
    (name : String) (hne : results ≠ []) :
    ∃ rep, generate_report results name = some rep ∧
      rep.total_trials = results.length ∧
      rep.average_score =
        (((results.map (fun r => r.score)).sum : Int) : ℚ) / (results.length : ℚ) ∧
      (results.filter (fun r => !r.path.isEmpty) ≠ [] →
        rep.average_path_length =
          ((((results.filter (fun r => !r.path.isEmpty)).map
              (fun r => r.path.length)).sum : Nat) : ℚ) /
            ((results.countP (fun r => !r.path.isEmpty) : Nat) : ℚ)) ∧
      (results.filter (fun r => !r.path.isEmpty) = [] →
        rep.average_path_length = 0) := by
  have hne' : results.isEmpty = false := by
    simp [List.isEmpty_iff, hne]
  unfold generate_report
  simp only [hne', Bool.false_eq_true, if_false]
  refine ⟨_, rfl, rfl, ?_, ?_, ?_⟩
  · simp only [List.length_map]
  · intro hf
    have hme : ((results.filter (fun r => !r.path.isEmpty)).map
        (fun r => r.path.length)).isEmpty = false := by
      simp [List.isEmpty_iff, hf]
    simp [hme, List.countP_eq_length_filter]
  · intro hf
    simp [hf]

/-- Witness for C10, at a one-element result list whose only trial gave up. -/
theorem average_path_length_excludes_empty_witness :
    ([emptyTrialResult] : List WikiBenchResult) ≠ [] ∧
    ∃ rep, generate_report [emptyTrialResult] "agent" = some rep ∧
      rep.total_trials = [emptyTrialResult].length ∧
      rep.average_score =
        ((([emptyTrialResult].map (fun r => r.score)).sum : Int) : ℚ) /
          (([emptyTrialResult] : List WikiBenchResult).length : ℚ) ∧
      ([emptyTrialResult].filter (fun r => !r.path.isEmpty) ≠ [] →
        rep.average_path_length =
          (((([emptyTrialResult].filter (fun r => !r.path.isEmpty)).map
              (fun r => r.path.length)).sum : Nat) : ℚ) /
            (([emptyTrialResult].countP (fun r => !r.path.isEmpty) : Nat) : ℚ)) ∧
      ([emptyTrialResult].filter (fun r => !r.path.isEmpty) = [] →
        rep.average_path_length = 0) :=
  ⟨List.cons_ne_nil _ _,
    average_path_length_excludes_empty [emptyTrialResult] "agent" (List.cons_ne_nil _ _)⟩

end WikiBench
